import Mathlib

/-!
# NitfFile: segment classification, payload location and record writing

A shallow embedding of `plugins/nitf/io/NitfFile.cpp` (PDAL's adapter over the
Nitro NITF library).  Library objects are represented by what the adapter
observes of them: a field is its type tag and its text, a segment is its
subheader fields and its byte extent, a record is its two segment lists.
Member functions pass the object state explicitly and return it next to the
outcome, so that the state left behind by a thrown exception is visible.
-/

set_option autoImplicit false

namespace pdal

/-! ## Library objects as observed by the adapter -/

/-- The field type tags of the NITF library that the adapter tests for. -/
inductive FieldType where
  | BCS_A
  | BCS_N
  | BINARY
  deriving DecidableEq, Repr

/-- A library field: `type` is `getType()`, `raw` is `toString()`. -/
structure Field where
  type : FieldType
  raw : String
  deriving DecidableEq, Repr

/-- Value of a run of decimal digits read left to right, stopping at the first
non-digit, starting from the accumulator `acc`. -/
def digitsValue : List Char → Nat → Nat
  | [], acc => acc
  | c :: cs, acc => if c.isDigit then digitsValue cs (acc * 10 + (c.toNat - 48)) else acc

/-- The integer conversion `(int)field` of the library for a text field: the
field text is read as a base-10 number (leading white space skipped, optional
sign, then digits; `0` when there is no digit), the way `strtol` reads it.  The
fields converted here are a few characters wide, so the value fits an `int`. -/
def Field.toInt (f : Field) : Int :=
  match f.raw.toList.dropWhile Char.isWhitespace with
  | '-' :: cs => - (digitsValue cs 0 : Int)
  | '+' :: cs => (digitsValue cs 0 : Int)
  | cs => (digitsValue cs 0 : Int)

/-- An image subheader, reduced to the field the classifier reads. -/
structure ImageSubheader where
  imageId : Field
  deriving DecidableEq, Repr

/-- An image segment. -/
structure ImageSegment where
  subheader : ImageSubheader
  deriving DecidableEq, Repr

/-- A data-extension subheader, reduced to the fields the classifier reads. -/
structure DESubheader where
  typeID : Field
  version : Field
  deriving DecidableEq, Repr

/-- A data-extension segment: its subheader and its byte extent in the file
(`offset` and `segEnd` are what `getOffset()` and `getEnd()` are computed from). -/
structure DESegment where
  subheader : DESubheader
  offset : Nat
  segEnd : Nat
  deriving DecidableEq, Repr

/-- Wrap a natural number to an unsigned 64-bit value. -/
def toUint64 (n : Nat) : Nat := n % 2 ^ 64

/-- The call `seg.getOffset()`, a `Uint64`. -/
def DESegment.getOffset (seg : DESegment) : Nat := toUint64 seg.offset

/-- The call `seg.getEnd()`, a `Uint64`. -/
def DESegment.getEnd (seg : DESegment) : Nat := toUint64 seg.segEnd

/-- A record as the classifier sees it: the image segments and the
data-extension segments in enumeration order.  `getNumImages()` and
`getNumDataExtensions()` are the lengths of these lists. -/
structure Record where
  images : List ImageSegment
  dataExtensions : List DESegment
  deriving DecidableEq, Repr

/-- The empty record of a default-constructed `nitf::Record`. -/
def Record.empty : Record := { images := [], dataExtensions := [] }

/-- What the adapter throws: `pdal_error` everywhere except in `write`, whose
name/value loops throw a bare `std::string`. -/
inductive Error where
  | pdal_error (msg : String)
  | str (msg : String)
  deriving DecidableEq, Repr

/-! ## The `NitfFile` object -/

/-- The data members of `NitfFile` (library handles left out). -/
structure NitfFile where
  m_record : Record
  m_cLevel : String
  m_sType : String
  m_oStationId : String
  m_fileTitle : String
  m_fileClass : String
  m_origName : String
  m_origPhone : String
  m_securityClass : String
  m_securityControlAndHandling : String
  m_securityClassificationSystem : String
  m_imgSecurityClass : String
  m_imgDate : String
  m_aimidb : List String
  m_acftb : List String
  m_imgIdentifier2 : String
  m_sic : String
  m_filename : String
  m_validLidarSegments : Bool
  m_lidarImageSegment : Nat
  m_lidarDataSegment : Nat
  deriving DecidableEq, Repr

/-- The constructor `NitfFile::NitfFile(filename)`: strings and lists default
constructed, the flag false, both markers zero. -/
def NitfFile.new (filename : String) : NitfFile :=
  { m_record := Record.empty
    m_cLevel := "", m_sType := "", m_oStationId := "", m_fileTitle := ""
    m_fileClass := "", m_origName := "", m_origPhone := "", m_securityClass := ""
    m_securityControlAndHandling := "", m_securityClassificationSystem := ""
    m_imgSecurityClass := "", m_imgDate := "", m_aimidb := [], m_acftb := []
    m_imgIdentifier2 := "", m_sic := ""
    m_filename := filename
    m_validLidarSegments := false
    m_lidarImageSegment := 0
    m_lidarDataSegment := 0 }

/-- The compile-time policy switch `REQUIRE_LIDAR_SEGMENTS`. -/
def REQUIRE_LIDAR_SEGMENTS : Bool := true

/-! ## Segment classifier -/

/-- The test of `locateLidarImageSegment` on the image identifier text. -/
def isLidarImageId (iid1 : String) : Bool :=
  iid1 == "INTENSITY " || iid1 == "ELEVATION " || iid1 == "None      "

/-- The `for` loop of `locateLidarImageSegment`, from the iterator position
`segs` with counter `segNum`: `some n` when the loop returns true after storing
`n`, `none` when it runs off the end. -/
def locateLidarImageSegmentLoop : List ImageSegment → Nat → Except Error (Option Nat)
  | [], _ => .ok none
  | imseg :: rest, segNum =>
    let field := imseg.subheader.imageId
    if field.type ≠ FieldType.BCS_A then
      .error (Error.pdal_error "error reading nitf (5)")
    else
      let iid1 := field.raw
      if isLidarImageId iid1 then .ok (some segNum)
      else locateLidarImageSegmentLoop rest (segNum + 1)

/-- The member `NitfFile::locateLidarImageSegment`: the state afterwards and the
outcome. -/
def NitfFile.locateLidarImageSegment (self : NitfFile) : NitfFile × Except Error Bool :=
  match locateLidarImageSegmentLoop self.m_record.images 0 with
  | .error e => (self, .error e)
  | .ok (some segNum) => ({ self with m_lidarImageSegment := segNum }, .ok true)
  | .ok none => (self, .ok false)

/-- The test of `locateLidarDataSegment` on the type identifier and version. -/
def isLidarDataId (id : String) (ver : Int) : Bool :=
  id == "LIDARA DES               " && ver == 1

/-- The `for` loop of `locateLidarDataSegment`. -/
def locateLidarDataSegmentLoop : List DESegment → Nat → Except Error (Option Nat)
  | [], _ => .ok none
  | seg :: rest, segNum =>
    let idField := seg.subheader.typeID
    if idField.type ≠ FieldType.BCS_A then
      .error (Error.pdal_error "error reading nitf (6)")
    else
      let verField := seg.subheader.version
      if verField.type ≠ FieldType.BCS_N then
        .error (Error.pdal_error "error reading nitf (7)")
      else
        let id := idField.raw
        let ver := verField.toInt
        if isLidarDataId id ver then .ok (some segNum)
        else locateLidarDataSegmentLoop rest (segNum + 1)

/-- The member `NitfFile::locateLidarDataSegment`: the state afterwards and the
outcome. -/
def NitfFile.locateLidarDataSegment (self : NitfFile) : NitfFile × Except Error Bool :=
  match locateLidarDataSegmentLoop self.m_record.dataExtensions 0 with
  | .error e => (self, .error e)
  | .ok (some segNum) => ({ self with m_lidarDataSegment := segNum }, .ok true)
  | .ok none => (self, .ok false)

/-- What the library calls at the head of `openExisting` came to: the version
probe failed, the file could not be opened, the reader threw, or the reader
returned a record. -/
inductive ReadOutcome where
  | versionUnknown
  | openFailed (msg : String)
  | readFailed (msg : String)
  | read (record : Record)
  deriving DecidableEq, Repr

/-- The member `NitfFile::openExisting` with the policy switch as an argument. -/
def NitfFile.openExistingWith (require : Bool) (self : NitfFile) (io : ReadOutcome) :
    NitfFile × Except Error Unit :=
  match io with
  | .versionUnknown =>
    (self, .error (Error.pdal_error "Unable to determine NITF file version"))
  | .openFailed msg =>
    (self, .error (Error.pdal_error ("unable to open NITF file (" ++ msg ++ ")")))
  | .readFailed msg =>
    (self, .error (Error.pdal_error ("unable to read NITF file (" ++ msg ++ ")")))
  | .read record =>
    let self₁ : NitfFile := { self with m_record := record }
    match self₁.locateLidarImageSegment with
    | (self₂, .error e) => (self₂, .error e)
    | (self₂, .ok imageOK) =>
      if require && !imageOK then
        (self₂, .error (Error.pdal_error
          "Unable to find lidar-compatible image segment in NITF file"))
      else
        match self₂.locateLidarDataSegment with
        | (self₃, .error e) => (self₃, .error e)
        | (self₃, .ok dataOK) =>
          if require && !dataOK then
            (self₃, .error (Error.pdal_error
              "Unable to find LIDARA data extension segment in NITF file"))
          else
            ({ self₃ with m_validLidarSegments := dataOK && imageOK }, .ok ())

/-- The member `NitfFile::openExisting` as compiled: the policy is
`REQUIRE_LIDAR_SEGMENTS`. -/
def NitfFile.openExisting (self : NitfFile) (io : ReadOutcome) :
    NitfFile × Except Error Unit :=
  self.openExistingWith REQUIRE_LIDAR_SEGMENTS io

/-! ## Payload locator -/

/-- The `for` loop of `getLasOffset`: the segment under the iterator when the
counter reaches the data marker, `none` when the loop runs off the end. -/
def getLasOffsetLoop (m_lidarDataSegment : Nat) : List DESegment → Nat → Option DESegment
  | [], _ => none
  | seg :: rest, segNum =>
    if segNum = m_lidarDataSegment then some seg
    else getLasOffsetLoop m_lidarDataSegment rest (segNum + 1)

/-- The member `NitfFile::getLasOffset`.  The arguments `offset` and `length` are the
values the two reference parameters hold on entry; the result is what they
hold on exit, next to the outcome. -/
def NitfFile.getLasOffset (self : NitfFile) (_offset _length : Nat) :
    (Nat × Nat) × Except Error Unit :=
  let offset₀ := 0
  let length₀ := 0
  if !self.m_validLidarSegments then ((offset₀, length₀), .ok ())
  else
    match getLasOffsetLoop self.m_lidarDataSegment self.m_record.dataExtensions 0 with
    | some seg =>
      let seg_offset := seg.getOffset
      let seg_end := seg.getEnd
      ((seg_offset, toUint64 (seg_end + 2 ^ 64 - seg_offset)), .ok ())
    | none => ((offset₀, length₀), .error (Error.pdal_error "error reading nitf (1)"))

/-! ## Writer

`write` is modelled by the calls it makes on the record it builds: every
header slot holds the string handed to its `set`, a slot that is set only
under a guard holds an `Option`, and a tagged record extension is the list of
its `setField` calls in order.  The corner coordinates (floating point) and
the library's own output step are left out; a failure inside the library only
removes configurations from those for which `write` succeeds. -/

/-- A tagged record extension under construction: its tag and the
`setField (name, value)` calls made on it, oldest first. -/
structure TRE where
  tag : String
  fields : List (String × String)
  deriving DecidableEq, Repr

/-- The call `tre.setField(name, value)`. -/
def TRE.setField (tre : TRE) (name value : String) : TRE :=
  { tre with fields := tre.fields ++ [(name, value)] }

/-- The security group of a header: the three slots `write` fills. -/
structure FileSecurity where
  classificationSystem : String
  controlAndHandling : String
  classificationText : String
  deriving DecidableEq, Repr

/-- The file-header slots `write` sets. -/
structure FileHeaderSlots where
  fileHeader : String
  complianceLevel : String
  systemType : String
  originStationID : String
  fileTitle : String
  classification : String
  messageCopyNum : String
  messageNumCopies : String
  encrypted : String
  backgroundColor : String
  originatorName : String
  originatorPhone : String
  securityGroup : FileSecurity
  deriving DecidableEq, Repr

/-- The data-extension subheader slots `write` sets. -/
structure DESubheaderSlots where
  filePartType : String
  typeID : String
  version : String
  securityClass : String
  securityGroup : FileSecurity
  subheaderFields : TRE
  deriving DecidableEq, Repr

/-- The image subheader slots `write` sets.  `imageDateAndTime` is `none`
when its `set` is skipped; `extendedSection` lists the appended extensions. -/
structure ImageSubheaderSlots where
  imageSecurityClass : String
  securityGroup : FileSecurity
  imageDateAndTime : Option String
  pixelValueType : String
  numBitsPerPixel : Nat
  actualBitsPerPixel : Nat
  pixelJustification : String
  imageRepresentation : String
  imageCategory : String
  numBands : Nat
  numRows : Nat
  numCols : Nat
  numRowsPerBlock : Nat
  numColsPerBlock : Nat
  imageMode : String
  imageId : String
  imageTitle : String
  extendedSection : List TRE
  deriving DecidableEq, Repr

/-- The record `write` builds: one header, one data-extension segment, one
image segment. -/
structure WrittenRecord where
  header : FileHeaderSlots
  des : DESubheaderSlots
  image : ImageSubheaderSlots
  deriving DecidableEq, Repr

/-- The body shared by the two name/value loops of `write` (`//AIMIDB` and
`//ACFTB`, identical but for the tag in the message).  `split2` and `trim`
stand for `Utils::split2` and `Utils::trim`, which are not part of this file. -/
def setNameValueFields (split2 : String → Char → List String) (trim : String → String)
    (tag : String) : List String → TRE → Except Error TRE
  | [], tre => .ok tre
  | s :: rest, tre =>
    let v := split2 s ':'
    if v.length ≠ 2 then
      .error (Error.str
        ("Invalid name/value for " ++ tag ++ " '" ++ s ++ "'.  Format: <name>:<value>."))
    else
      let v0 := trim (v.getD 0 "")
      let v1 := trim (v.getD 1 "")
      setNameValueFields split2 trim tag rest (tre.setField v0 v1)

/-- The member `NitfFile::write`: the state afterwards (the file title may have been
replaced) and either the record handed to the library's writer or the error
thrown while building it. -/
def NitfFile.write (split2 : String → Char → List String) (trim : String → String)
    (self : NitfFile) : NitfFile × Except Error WrittenRecord :=
  let self₁ : NitfFile :=
    if self.m_fileTitle.isEmpty then { self with m_fileTitle := self.m_filename } else self
  let security : FileSecurity :=
    { classificationSystem := self₁.m_securityClassificationSystem
      controlAndHandling := self₁.m_securityControlAndHandling
      classificationText := self₁.m_sic }
  let header : FileHeaderSlots :=
    { fileHeader := "NITF"
      complianceLevel := self₁.m_cLevel
      systemType := self₁.m_sType
      originStationID := self₁.m_oStationId
      fileTitle := self₁.m_fileTitle
      classification := self₁.m_fileClass
      messageCopyNum := "00000"
      messageNumCopies := "00000"
      encrypted := "0"
      backgroundColor := "000"
      originatorName := self₁.m_origName
      originatorPhone := self₁.m_origPhone
      securityGroup := security }
  let usrHdr : TRE := (TRE.mk "LIDARA DES" []).setField "raw_data" "not"
  let des : DESubheaderSlots :=
    { filePartType := "DE"
      typeID := "LIDARA DES"
      version := "01"
      securityClass := self₁.m_securityClass
      securityGroup := security
      subheaderFields := usrHdr }
  match setNameValueFields split2 trim "AIMIDB" self₁.m_aimidb (TRE.mk "AIMIDB" []) with
  | .error e => (self₁, .error e)
  | .ok aimidbTre =>
    let ext₁ : List TRE := if self₁.m_aimidb.length ≠ 0 then [aimidbTre] else []
    match setNameValueFields split2 trim "ACFTB" self₁.m_acftb (TRE.mk "ACFTB" []) with
    | .error e => (self₁, .error e)
    | .ok acftbTre =>
      let ext₂ : List TRE := if self₁.m_acftb.length ≠ 0 then ext₁ ++ [acftbTre] else ext₁
      let subheader : ImageSubheaderSlots :=
        { imageSecurityClass := self₁.m_imgSecurityClass
          securityGroup := security
          imageDateAndTime := if self₁.m_imgDate.length ≠ 0 then some self₁.m_imgDate else none
          pixelValueType := "INT"
          numBitsPerPixel := 8
          actualBitsPerPixel := 8
          pixelJustification := "R"
          imageRepresentation := "NODISPLY"
          imageCategory := "VIS"
          numBands := 1
          numRows := 8
          numCols := 8
          numRowsPerBlock := 8
          numColsPerBlock := 8
          imageMode := "P"
          imageId := "None"
          imageTitle := self₁.m_imgIdentifier2
          extendedSection := ext₂ }
      (self₁, .ok { header := header, des := des, image := subheader })

/-! ### The written record as a reader finds it -/

/-- Width of the image identifier field (IID1). -/
def IID1_SZ : Nat := 10

/-- Width of the data-extension type identifier field (DESID). -/
def DESTAG_SZ : Nat := 25

/-- Width of the data-extension version field (DESVER). -/
def DESVER_SZ : Nat := 2

/-- The library's `set` on a BCS-A field of the given width: the text is kept
left-justified and padded with blanks up to the width. -/
def setBCSA (width : Nat) (s : String) : Field :=
  { type := FieldType.BCS_A, raw := s ++ String.mk (List.replicate (width - s.length) ' ') }

/-- The library's `set` on a BCS-N field of the given width: the text is kept
right-justified and padded with zeros up to the width. -/
def setBCSN (width : Nat) (s : String) : Field :=
  { type := FieldType.BCS_N, raw := String.mk (List.replicate (width - s.length) '0') ++ s }

/-- The record a reader gets back from a file written from `w`: one image
segment and one data-extension segment, their identifying fields stored at
their fixed widths; `offset` and `segEnd` are where the library placed the
payload. -/
def WrittenRecord.readBack (w : WrittenRecord) (offset segEnd : Nat) : Record :=
  { images := [{ subheader := { imageId := setBCSA IID1_SZ w.image.imageId } }]
    dataExtensions :=
      [{ subheader := { typeID := setBCSA DESTAG_SZ w.des.typeID
                        version := setBCSN DESVER_SZ w.des.version }
         offset := offset
         segEnd := segEnd }] }

/-- Modelled from the spec: `Utils::split2`, a helper of this repository that is
not among the sources.  The spec speaks of "name:value" strings and of
colon-separated pairs; the text is cut at every occurrence of the separator. -/
def Utils.split2 (s : String) (sep : Char) : List String :=
  (s.toList.splitOn sep).map String.mk

/-- Modelled from the spec: `Utils::trim`, a helper of this repository that is
not among the sources; it removes the blanks at both ends of a string. -/
def Utils.trim (s : String) : String :=
  String.mk ((s.toList.dropWhile Char.isWhitespace).reverse.dropWhile Char.isWhitespace).reverse

/-! ## The classifier with the identifier test as an argument

The image scan and `openExisting` once more, with the test on the identifier
text passed in.  With `isLidarImageId` they are the functions above; with the
test below they are the classifier that does not accept the placeholder. -/

/-- The identifier test without its third disjunct: only "INTENSITY " and
"ELEVATION " are accepted. -/
def isLidarImageIdNoPlaceholder (iid1 : String) : Bool :=
  iid1 == "INTENSITY " || iid1 == "ELEVATION "

/-- The `for` loop of `locateLidarImageSegment` with `accept` in place of the
test on `iid1`. -/
def locateLidarImageSegmentLoopUsing (accept : String → Bool) :
    List ImageSegment → Nat → Except Error (Option Nat)
  | [], _ => .ok none
  | imseg :: rest, segNum =>
    let field := imseg.subheader.imageId
    if field.type ≠ FieldType.BCS_A then
      .error (Error.pdal_error "error reading nitf (5)")
    else
      let iid1 := field.raw
      if accept iid1 then .ok (some segNum)
      else locateLidarImageSegmentLoopUsing accept rest (segNum + 1)

/-- The member `locateLidarImageSegment` with `accept` in place of the test on
`iid1`. -/
def NitfFile.locateLidarImageSegmentUsing (accept : String → Bool) (self : NitfFile) :
    NitfFile × Except Error Bool :=
  match locateLidarImageSegmentLoopUsing accept self.m_record.images 0 with
  | .error e => (self, .error e)
  | .ok (some segNum) => ({ self with m_lidarImageSegment := segNum }, .ok true)
  | .ok none => (self, .ok false)

/-- The member `openExisting` with `accept` in place of the test on `iid1` in
its image scan. -/
def NitfFile.openExistingUsing (accept : String → Bool) (require : Bool) (self : NitfFile)
    (io : ReadOutcome) : NitfFile × Except Error Unit :=
  match io with
  | .versionUnknown =>
    (self, .error (Error.pdal_error "Unable to determine NITF file version"))
  | .openFailed msg =>
    (self, .error (Error.pdal_error ("unable to open NITF file (" ++ msg ++ ")")))
  | .readFailed msg =>
    (self, .error (Error.pdal_error ("unable to read NITF file (" ++ msg ++ ")")))
  | .read record =>
    let self₁ : NitfFile := { self with m_record := record }
    match self₁.locateLidarImageSegmentUsing accept with
    | (self₂, .error e) => (self₂, .error e)
    | (self₂, .ok imageOK) =>
      if require && !imageOK then
        (self₂, .error (Error.pdal_error
          "Unable to find lidar-compatible image segment in NITF file"))
      else
        match self₂.locateLidarDataSegment with
        | (self₃, .error e) => (self₃, .error e)
        | (self₃, .ok dataOK) =>
          if require && !dataOK then
            (self₃, .error (Error.pdal_error
              "Unable to find LIDARA data extension segment in NITF file"))
          else
            ({ self₃ with m_validLidarSegments := dataOK && imageOK }, .ok ())

/-! ## Vocabulary of the statements -/

/-- The image identification rule: the identifier text is one of the three
fixed-width sentinels. -/
def HasLidarImageId (seg : ImageSegment) : Prop :=
  seg.subheader.imageId.raw = "INTENSITY " ∨ seg.subheader.imageId.raw = "ELEVATION " ∨
    seg.subheader.imageId.raw = "None      "

instance (seg : ImageSegment) : Decidable (HasLidarImageId seg) := by
  unfold HasLidarImageId; infer_instance

/-- The type/version rule: the type identifier is the 25-character sentinel and
the version reads as 1, on the same segment. -/
def HasLidarDataId (seg : DESegment) : Prop :=
  seg.subheader.typeID.raw = "LIDARA DES               " ∧ seg.subheader.version.toInt = 1

instance (seg : DESegment) : Decidable (HasLidarDataId seg) := by
  unfold HasLidarDataId; infer_instance

/-- The image identifier fields of the record have the type the classifier insists on. -/
def ImagesTyped (r : Record) : Prop :=
  ∀ seg ∈ r.images, seg.subheader.imageId.type = FieldType.BCS_A

/-- The type identifier and version fields of the record have the types the
classifier insists on. -/
def DataTyped (r : Record) : Prop :=
  ∀ seg ∈ r.dataExtensions,
    seg.subheader.typeID.type = FieldType.BCS_A ∧ seg.subheader.version.type = FieldType.BCS_N

/-- The index `i` is that of the first element of `l` that satisfies `P`. -/
def IsFirstIndex {α : Type} (P : α → Prop) (l : List α) (i : Nat) : Prop :=
  (∃ a, l[i]? = some a ∧ P a) ∧ ∀ j, j < i → ∀ b, l[j]? = some b → ¬ P b

/-- A counting scan with an early exit, the common shape of the two classifier
loops: `step` either throws, accepts the element, or passes it over. -/
def scanSegments {α : Type} (step : α → Except Error Bool) :
    List α → Nat → Except Error (Option Nat)
  | [], _ => .ok none
  | a :: rest, segNum =>
    match step a with
    | .error e => .error e
    | .ok true => .ok (some segNum)
    | .ok false => scanSegments step rest (segNum + 1)

/-- One iteration of the image loop. -/
def imageStep (imseg : ImageSegment) : Except Error Bool :=
  if imseg.subheader.imageId.type ≠ FieldType.BCS_A then
    .error (Error.pdal_error "error reading nitf (5)")
  else .ok (isLidarImageId imseg.subheader.imageId.raw)

/-- One iteration of the data-extension loop. -/
def dataStep (seg : DESegment) : Except Error Bool :=
  if seg.subheader.typeID.type ≠ FieldType.BCS_A then
    .error (Error.pdal_error "error reading nitf (6)")
  else if seg.subheader.version.type ≠ FieldType.BCS_N then
    .error (Error.pdal_error "error reading nitf (7)")
  else .ok (isLidarDataId seg.subheader.typeID.raw seg.subheader.version.toInt)

/-- The name and value `write` hands to `setField` for an entry that was cut
in two: the trimmed first piece and the trimmed second piece. -/
def nameValueOf (split2 : String → Char → List String) (trim : String → String)
    (s : String) : String × String :=
  (trim ((split2 s ':').getD 0 ""), trim ((split2 s ':').getD 1 ""))

/-- The extensions `write` appends to the image subheader when every entry was
accepted: one per non-empty list, AIMIDB first. -/
def expectedExtensions (split2 : String → Char → List String) (trim : String → String)
    (aimidb acftb : List String) : List TRE :=
  (if aimidb = [] then [] else [TRE.mk "AIMIDB" (aimidb.map (nameValueOf split2 trim))]) ++
    (if acftb = [] then [] else [TRE.mk "ACFTB" (acftb.map (nameValueOf split2 trim))])

/-! ## Sample inputs -/

/-- An image segment with the given identifier text, typed BCS-A. -/
def imageWithId (iid1 : String) : ImageSegment :=
  { subheader := { imageId := { type := FieldType.BCS_A, raw := iid1 } } }

/-- A data-extension segment with the given type identifier (BCS-A), version
text (BCS-N) and byte extent. -/
def desWith (id ver : String) (offset segEnd : Nat) : DESegment :=
  { subheader := { typeID := { type := FieldType.BCS_A, raw := id }
                   version := { type := FieldType.BCS_N, raw := ver } }
    offset := offset
    segEnd := segEnd }

/-- A freshly constructed object holding the given record. -/
def fileWith (r : Record) : NitfFile := { NitfFile.new "sample.ntf" with m_record := r }

/-- A record whose second and third image segments and second data-extension
segment satisfy the identification rules. -/
def sampleRecord : Record :=
  { images := [imageWithId "OVERVIEW  ", imageWithId "ELEVATION ", imageWithId "INTENSITY "]
    dataExtensions :=
      [desWith "LIDARA DES               " "02" 100 200,
       desWith "LIDARA DES               " "01" 200 1000,
       desWith "LIDARA DES               " "01" 1000 1500] }

/-- A record with no lidar image segment and no lidar data-extension segment;
its one data-extension segment has an ill-typed identifier field, which any
scan of the data-extension segments would reject. -/
def lackingBoth : Record :=
  { images := [imageWithId "OVERVIEW  ", imageWithId "INTENSITY"]
    dataExtensions :=
      [{ subheader := { typeID := { type := FieldType.BINARY, raw := "" }
                        version := { type := FieldType.BCS_N, raw := "01" } }
         offset := 0
         segEnd := 0 }] }

/-- A classified object: the sample record, flag set, data marker at index 1. -/
def classifiedFile : NitfFile :=
  { fileWith sampleRecord with
    m_validLidarSegments := true, m_lidarImageSegment := 1, m_lidarDataSegment := 1 }

/-- A record whose "INTENSITY " image segment (index 1) comes after an
"ELEVATION " one (index 0), with one lidar data-extension segment. -/
def elevationFirst : Record :=
  { images := [imageWithId "ELEVATION ", imageWithId "INTENSITY "]
    dataExtensions := [desWith "LIDARA DES               " "01" 0 10] }

/-- A record whose only lidar segments are its "INTENSITY " image segment
(index 1) and its second data-extension segment (index 1). -/
def intensityRecord : Record :=
  { images := [imageWithId "OVERVIEW  ", imageWithId "INTENSITY "]
    dataExtensions :=
      [desWith "LIDARA DES               " "02" 100 200,
       desWith "LIDARA DES               " "01" 200 1000] }

/-- A writer configuration with one mission entry and one aircraft entry. -/
def taggedConfig : NitfFile :=
  { NitfFile.new "out.ntf" with m_aimidb := ["FOO:bar"], m_acftb := [" AC_MSN_ID : run 7 "] }

/-- A writer configuration whose second mission entry has no colon. -/
def malformedConfig : NitfFile :=
  { NitfFile.new "out.ntf" with m_aimidb := ["FOO:bar", "FOOBAR"], m_acftb := ["A:b"] }

/-- A writer configuration whose aircraft entry has two colons. -/
def malformedAircraftConfig : NitfFile :=
  { NitfFile.new "out.ntf" with m_aimidb := ["FOO:bar"], m_acftb := ["A:b:c"] }

/-- A writer configuration with every descriptive option empty. -/
def untitledConfig : NitfFile := NitfFile.new "out.ntf"

/-- A writer configuration with three entries that are not pairs: the first and
second mission entries and the aircraft entry. -/
def twoMalformedConfig : NitfFile :=
  { NitfFile.new "out.ntf" with m_aimidb := ["X", "A:b:c"], m_acftb := ["FOOBAR"] }

/-- A writer configuration with every descriptive option given. -/
def describedConfig : NitfFile :=
  { NitfFile.new "out.ntf" with
    m_cLevel := "03", m_sType := "BF01", m_oStationId := "PDAL", m_fileTitle := "survey"
    m_fileClass := "U", m_origName := "someone", m_origPhone := "555", m_securityClass := "U"
    m_securityControlAndHandling := "h", m_securityClassificationSystem := "US"
    m_imgSecurityClass := "U", m_imgDate := "20240101000000", m_imgIdentifier2 := "tile 7"
    m_sic := "none" }

/-! ## Lemmas on the classifier loops -/

theorem isLidarImageId_iff (seg : ImageSegment) :
    isLidarImageId seg.subheader.imageId.raw = true ↔ HasLidarImageId seg := by
  simp [isLidarImageId, HasLidarImageId, or_assoc]

theorem isLidarDataId_iff (seg : DESegment) :
    isLidarDataId seg.subheader.typeID.raw seg.subheader.version.toInt = true ↔
      HasLidarDataId seg := by
  simp [isLidarDataId, HasLidarDataId]

theorem locateLidarImageSegmentLoop_eq_scan (segs : List ImageSegment) (n : Nat) :
    locateLidarImageSegmentLoop segs n = scanSegments imageStep segs n := by
  induction segs generalizing n with
  | nil => rfl
  | cons a rest ih =>
    simp only [locateLidarImageSegmentLoop, scanSegments, imageStep]
    by_cases hty : a.subheader.imageId.type = FieldType.BCS_A
    · by_cases hid : isLidarImageId a.subheader.imageId.raw = true
      · simp [hty, hid]
      · simp [hty, hid, ih]
    · simp [hty]

theorem locateLidarDataSegmentLoop_eq_scan (segs : List DESegment) (n : Nat) :
    locateLidarDataSegmentLoop segs n = scanSegments dataStep segs n := by
  induction segs generalizing n with
  | nil => rfl
  | cons a rest ih =>
    simp only [locateLidarDataSegmentLoop, scanSegments, dataStep]
    by_cases hty : a.subheader.typeID.type = FieldType.BCS_A
    · by_cases hv : a.subheader.version.type = FieldType.BCS_N
      · by_cases hid : isLidarDataId a.subheader.typeID.raw a.subheader.version.toInt = true
        · simp [hty, hv, hid]
        · simp [hty, hv, hid, ih]
      · simp [hty, hv]
    · simp [hty]

theorem scanSegments_none {α : Type} (step : α → Except Error Bool) (l : List α) (n : Nat) :
    scanSegments step l n = .ok none ↔ ∀ a ∈ l, step a = .ok false := by
  induction l generalizing n with
  | nil => simp [scanSegments]
  | cons a rest ih =>
    simp only [scanSegments, List.mem_cons, forall_eq_or_imp]
    cases hs : step a with
    | error e => simp
    | ok b => cases b <;> simp [ih]

theorem scanSegments_some {α : Type} (step : α → Except Error Bool) (l : List α) (n k : Nat) :
    scanSegments step l n = .ok (some k) ↔
      ∃ i, k = n + i ∧ (∃ a, l[i]? = some a ∧ step a = .ok true) ∧
        ∀ j, j < i → ∀ b, l[j]? = some b → step b = .ok false := by
  induction l generalizing n with
  | nil => simp [scanSegments]
  | cons a rest ih =>
    simp only [scanSegments]
    cases hs : step a with
    | error e =>
      constructor
      · intro h; simp at h
      · rintro ⟨i, _, ⟨x, hx, hxs⟩, hall⟩
        rcases Nat.eq_zero_or_pos i with h0 | hpos
        · subst h0; simp at hx; subst hx; simp [hs] at hxs
        · have := hall 0 hpos a (by simp); simp [hs] at this
    | ok b =>
      cases b with
      | true =>
        constructor
        · intro h
          refine ⟨0, ?_, ⟨a, by simp, hs⟩, by simp⟩
          simpa using h.symm
        · rintro ⟨i, hk, _, hall⟩
          rcases Nat.eq_zero_or_pos i with h0 | hpos
          · subst h0; simp [hk]
          · have := hall 0 hpos a (by simp); simp [hs] at this
      | false =>
        simp only [ih]
        constructor
        · rintro ⟨i, hk, ⟨x, hx, hxs⟩, hall⟩
          refine ⟨i + 1, by omega, ⟨x, by simpa using hx, hxs⟩, ?_⟩
          intro j hj b hb
          cases j with
          | zero => simp at hb; subst hb; exact hs
          | succ j => exact hall j (by omega) b (by simpa using hb)
        · rintro ⟨i, hk, ⟨x, hx, hxs⟩, hall⟩
          cases i with
          | zero => simp at hx; subst hx; simp [hs] at hxs
          | succ i =>
            refine ⟨i, by omega, ⟨x, by simpa using hx, hxs⟩, ?_⟩
            intro j hj b hb
            exact hall (j + 1) (by omega) b (by simpa using hb)

theorem scanSegments_error {α : Type} (step : α → Except Error Bool) (l : List α) (n : Nat)
    (e : Error) (h : scanSegments step l n = .error e) : ∃ a ∈ l, step a = .error e := by
  induction l generalizing n with
  | nil => simp [scanSegments] at h
  | cons a rest ih =>
    simp only [scanSegments] at h
    cases hs : step a with
    | error e' =>
      rw [hs] at h
      simp at h
      exact ⟨a, by simp, by rw [hs, h]⟩
    | ok b =>
      rw [hs] at h
      cases b with
      | true => simp at h
      | false =>
        obtain ⟨x, hx, hxe⟩ := ih _ h
        exact ⟨x, by simp [hx], hxe⟩

theorem imageStep_true (seg : ImageSegment) :
    imageStep seg = .ok true ↔
      seg.subheader.imageId.type = FieldType.BCS_A ∧ HasLidarImageId seg := by
  rw [← isLidarImageId_iff]
  by_cases hty : seg.subheader.imageId.type = FieldType.BCS_A <;> simp [imageStep, hty]

theorem imageStep_false (seg : ImageSegment) :
    imageStep seg = .ok false ↔
      seg.subheader.imageId.type = FieldType.BCS_A ∧ ¬ HasLidarImageId seg := by
  rw [← isLidarImageId_iff]
  by_cases hty : seg.subheader.imageId.type = FieldType.BCS_A <;> simp [imageStep, hty]

theorem imageStep_error (seg : ImageSegment) (e : Error) (h : imageStep seg = .error e) :
    seg.subheader.imageId.type ≠ FieldType.BCS_A ∧
      e = Error.pdal_error "error reading nitf (5)" := by
  by_cases hty : seg.subheader.imageId.type = FieldType.BCS_A
  · simp [imageStep, hty] at h
  · simp [imageStep, hty] at h
    exact ⟨hty, h.symm⟩

theorem dataStep_true (seg : DESegment) :
    dataStep seg = .ok true ↔
      (seg.subheader.typeID.type = FieldType.BCS_A ∧
        seg.subheader.version.type = FieldType.BCS_N) ∧ HasLidarDataId seg := by
  rw [← isLidarDataId_iff]
  by_cases hty : seg.subheader.typeID.type = FieldType.BCS_A <;>
    by_cases hv : seg.subheader.version.type = FieldType.BCS_N <;> simp [dataStep, hty, hv]

theorem dataStep_false (seg : DESegment) :
    dataStep seg = .ok false ↔
      (seg.subheader.typeID.type = FieldType.BCS_A ∧
        seg.subheader.version.type = FieldType.BCS_N) ∧ ¬ HasLidarDataId seg := by
  rw [← isLidarDataId_iff]
  by_cases hty : seg.subheader.typeID.type = FieldType.BCS_A <;>
    by_cases hv : seg.subheader.version.type = FieldType.BCS_N <;> simp [dataStep, hty, hv]

theorem dataStep_error (seg : DESegment) (e : Error) (h : dataStep seg = .error e) :
    ¬ (seg.subheader.typeID.type = FieldType.BCS_A ∧
        seg.subheader.version.type = FieldType.BCS_N) ∧
      (e = Error.pdal_error "error reading nitf (6)" ∨
        e = Error.pdal_error "error reading nitf (7)") := by
  by_cases hty : seg.subheader.typeID.type = FieldType.BCS_A
  · by_cases hv : seg.subheader.version.type = FieldType.BCS_N
    · simp [dataStep, hty, hv] at h
    · simp [dataStep, hty, hv] at h
      exact ⟨fun hh => hv hh.2, Or.inr h.symm⟩
  · simp [dataStep, hty] at h
    exact ⟨fun hh => hty hh.1, Or.inl h.symm⟩

/-- The three ways `locateLidarImageSegment` can end, with what each says about
the record and the state. -/
theorem locateLidarImageSegment_cases (self : NitfFile) :
    (self.locateLidarImageSegment =
        (self, .error (Error.pdal_error "error reading nitf (5)")) ∧
      ¬ ImagesTyped self.m_record) ∨
    (self.locateLidarImageSegment = (self, .ok false) ∧
      ∀ seg ∈ self.m_record.images, ¬ HasLidarImageId seg) ∨
    (∃ k, self.locateLidarImageSegment = ({ self with m_lidarImageSegment := k }, .ok true) ∧
      IsFirstIndex HasLidarImageId self.m_record.images k) := by
  unfold NitfFile.locateLidarImageSegment
  rw [locateLidarImageSegmentLoop_eq_scan]
  cases h : scanSegments imageStep self.m_record.images 0 with
  | error e =>
    left
    obtain ⟨a, ha, hae⟩ := scanSegments_error _ _ _ _ h
    obtain ⟨hty, he⟩ := imageStep_error a e hae
    subst he
    exact ⟨rfl, fun hall => hty (hall a ha)⟩
  | ok r =>
    cases r with
    | none =>
      right; left
      refine ⟨rfl, fun seg hseg => ?_⟩
      exact ((imageStep_false seg).1 ((scanSegments_none _ _ _).1 h seg hseg)).2
    | some k =>
      right; right
      obtain ⟨i, hk, ⟨a, ha, hat⟩, hall⟩ := (scanSegments_some _ _ _ _).1 h
      have hki : k = i := by omega
      subst hki
      refine ⟨k, rfl, ⟨a, ha, ((imageStep_true a).1 hat).2⟩, ?_⟩
      intro j hj b hb
      exact ((imageStep_false b).1 (hall j hj b hb)).2

/-- The three ways `locateLidarDataSegment` can end. -/
theorem locateLidarDataSegment_cases (self : NitfFile) :
    ((∃ msg, self.locateLidarDataSegment = (self, .error (Error.pdal_error msg))) ∧
      ¬ DataTyped self.m_record) ∨
    (self.locateLidarDataSegment = (self, .ok false) ∧
      ∀ seg ∈ self.m_record.dataExtensions, ¬ HasLidarDataId seg) ∨
    (∃ k, self.locateLidarDataSegment = ({ self with m_lidarDataSegment := k }, .ok true) ∧
      IsFirstIndex HasLidarDataId self.m_record.dataExtensions k) := by
  unfold NitfFile.locateLidarDataSegment
  rw [locateLidarDataSegmentLoop_eq_scan]
  cases h : scanSegments dataStep self.m_record.dataExtensions 0 with
  | error e =>
    left
    obtain ⟨a, ha, hae⟩ := scanSegments_error _ _ _ _ h
    obtain ⟨hty, he | he⟩ := dataStep_error a e hae
    · exact ⟨⟨_, by rw [he]⟩, fun hall => hty (hall a ha)⟩
    · exact ⟨⟨_, by rw [he]⟩, fun hall => hty (hall a ha)⟩
  | ok r =>
    cases r with
    | none =>
      right; left
      refine ⟨rfl, fun seg hseg => ?_⟩
      exact ((dataStep_false seg).1 ((scanSegments_none _ _ _).1 h seg hseg)).2
    | some k =>
      right; right
      obtain ⟨i, hk, ⟨a, ha, hat⟩, hall⟩ := (scanSegments_some _ _ _ _).1 h
      have hki : k = i := by omega
      subst hki
      refine ⟨k, rfl, ⟨a, ha, ((dataStep_true a).1 hat).2⟩, ?_⟩
      intro j hj b hb
      exact ((dataStep_false b).1 (hall j hj b hb)).2

/-- The first index of a property is below the length of the list. -/
theorem IsFirstIndex.lt_length {α : Type} {P : α → Prop} {l : List α} {i : Nat}
    (h : IsFirstIndex P l i) : i < l.length := by
  obtain ⟨⟨a, ha, _⟩, _⟩ := h
  exact (List.getElem?_eq_some_iff.1 ha).1

/-- The element at the first index is in the list and has the property. -/
theorem IsFirstIndex.exists_mem {α : Type} {P : α → Prop} {l : List α} {i : Nat}
    (h : IsFirstIndex P l i) : ∃ a ∈ l, P a := by
  obtain ⟨⟨a, ha, hP⟩, _⟩ := h
  exact ⟨a, List.mem_iff_getElem?.2 ⟨i, ha⟩, hP⟩

/-- The first index of a property is unique. -/
theorem IsFirstIndex.unique {α : Type} {P : α → Prop} {l : List α} {i j : Nat}
    (hi : IsFirstIndex P l i) (hj : IsFirstIndex P l j) : i = j := by
  obtain ⟨⟨a, ha, hPa⟩, hia⟩ := hi
  obtain ⟨⟨b, hb, hPb⟩, hjb⟩ := hj
  rcases Nat.lt_trichotomy i j with h | h | h
  · exact absurd hPa (hjb i h a ha)
  · exact h
  · exact absurd hPb (hia j h b hb)

/-- The five ways `openExisting` can end on a record the reader returned.
`self` is the state on entry; the record is stored before any scan. -/
theorem openExisting_read_cases (self : NitfFile) (rec : Record) :
    ((self.openExisting (.read rec) =
        ({ self with m_record := rec },
          .error (Error.pdal_error "error reading nitf (5)"))) ∧ ¬ ImagesTyped rec) ∨
    ((self.openExisting (.read rec) =
        ({ self with m_record := rec },
          .error (Error.pdal_error
            "Unable to find lidar-compatible image segment in NITF file"))) ∧
      ∀ seg ∈ rec.images, ¬ HasLidarImageId seg) ∨
    (∃ k, IsFirstIndex HasLidarImageId rec.images k ∧
      (∃ msg, self.openExisting (.read rec) =
        ({ self with m_record := rec, m_lidarImageSegment := k },
          .error (Error.pdal_error msg))) ∧ ¬ DataTyped rec) ∨
    (∃ k, IsFirstIndex HasLidarImageId rec.images k ∧
      (self.openExisting (.read rec) =
        ({ self with m_record := rec, m_lidarImageSegment := k },
          .error (Error.pdal_error
            "Unable to find LIDARA data extension segment in NITF file"))) ∧
      ∀ seg ∈ rec.dataExtensions, ¬ HasLidarDataId seg) ∨
    (∃ k d, IsFirstIndex HasLidarImageId rec.images k ∧
      IsFirstIndex HasLidarDataId rec.dataExtensions d ∧
      self.openExisting (.read rec) =
        ({ self with m_record := rec, m_lidarImageSegment := k, m_lidarDataSegment := d,
                     m_validLidarSegments := true }, .ok ())) := by
  simp only [NitfFile.openExisting, NitfFile.openExistingWith, REQUIRE_LIDAR_SEGMENTS]
  rcases locateLidarImageSegment_cases { self with m_record := rec } with
    ⟨heq, hbad⟩ | ⟨heq, hnone⟩ | ⟨k, heq, hfirst⟩
  · left
    rw [heq]
    exact ⟨rfl, hbad⟩
  · right; left
    rw [heq]
    exact ⟨rfl, hnone⟩
  · rw [heq]
    rcases locateLidarDataSegment_cases
        { self with m_record := rec, m_lidarImageSegment := k } with
      ⟨⟨msg, heq'⟩, hbad⟩ | ⟨heq', hnone⟩ | ⟨d, heq', hfirst'⟩
    · right; right; left
      refine ⟨k, hfirst, ⟨msg, ?_⟩, hbad⟩
      simp only [Bool.true_and, Bool.not_true, Bool.false_eq_true, if_false]
      rw [heq']
    · right; right; right; left
      refine ⟨k, hfirst, ?_, hnone⟩
      simp only [Bool.true_and, Bool.not_true, Bool.false_eq_true, if_false]
      rw [heq']
      rfl
    · right; right; right; right
      refine ⟨k, d, hfirst, hfirst', ?_⟩
      simp only [Bool.true_and, Bool.not_true, Bool.false_eq_true, if_false]
      rw [heq']
      rfl

/-! ## The classifier contracts -/

/-- C1. `locateLidarImageSegment`, on a record whose image identifier fields all
have type BCS-A, returns (it does not throw); it returns true exactly when some
image segment carries one of the sentinels "INTENSITY ", "ELEVATION " or
"None      "; when it returns true the image marker is the index of the first
such segment and nothing else of the state changes; when it returns false the
state, the marker included, is unchanged. -/
theorem locateLidarImageSegment_contract (self : NitfFile)
    (hty : ∀ seg ∈ self.m_record.images, seg.subheader.imageId.type = FieldType.BCS_A) :
    (∃ b, self.locateLidarImageSegment.2 = .ok b) ∧
    (self.locateLidarImageSegment.2 = .ok true ↔
      ∃ seg ∈ self.m_record.images, HasLidarImageId seg) ∧
    (self.locateLidarImageSegment.2 = .ok true →
      IsFirstIndex HasLidarImageId self.m_record.images
          self.locateLidarImageSegment.1.m_lidarImageSegment ∧
        self.locateLidarImageSegment.1 =
          { self with m_lidarImageSegment :=
              self.locateLidarImageSegment.1.m_lidarImageSegment }) ∧
    (self.locateLidarImageSegment.2 = .ok false → self.locateLidarImageSegment.1 = self) := by
  rcases locateLidarImageSegment_cases self with ⟨_, hbad⟩ | ⟨heq, hnone⟩ | ⟨k, heq, hfirst⟩
  · exact absurd hty hbad
  · rw [heq]
    refine ⟨⟨false, rfl⟩, ?_, ?_, fun _ => rfl⟩
    · constructor
      · intro h; simp at h
      · rintro ⟨seg, hseg, hP⟩; exact absurd hP (hnone seg hseg)
    · intro h; simp at h
  · rw [heq]
    refine ⟨⟨true, rfl⟩, ?_, fun _ => ⟨hfirst, rfl⟩, ?_⟩
    · exact ⟨fun _ => hfirst.exists_mem, fun _ => rfl⟩
    · intro h; simp at h

/-- C1 at a record whose first sentinel sits at index 1, with a later one at
index 2: the hypothesis holds, the result is true and the marker is 1. -/
theorem locateLidarImageSegment_contract_witness :
    (∀ seg ∈ (fileWith sampleRecord).m_record.images,
        seg.subheader.imageId.type = FieldType.BCS_A) ∧
      (fileWith sampleRecord).locateLidarImageSegment.2 = .ok true ∧
      (fileWith sampleRecord).locateLidarImageSegment.1.m_lidarImageSegment = 1 ∧
      IsFirstIndex HasLidarImageId (fileWith sampleRecord).m_record.images 1 :=
  ⟨by decide, rfl, by decide,
    ((locateLidarImageSegment_contract (fileWith sampleRecord) (by decide)).2.2.1 rfl).1⟩

/-- C2. `locateLidarDataSegment`, on a record whose type identifier fields have
type BCS-A and whose version fields have type BCS-N, returns (it does not
throw); it returns true exactly when some data-extension segment has the type
identifier "LIDARA DES" padded to 25 characters and a version that reads as 1;
when it returns true the data marker is the index of the first such segment and
nothing else of the state changes; when it returns false the state is unchanged. -/
theorem locateLidarDataSegment_contract (self : NitfFile)
    (hty : ∀ seg ∈ self.m_record.dataExtensions,
      seg.subheader.typeID.type = FieldType.BCS_A ∧
        seg.subheader.version.type = FieldType.BCS_N) :
    (∃ b, self.locateLidarDataSegment.2 = .ok b) ∧
    (self.locateLidarDataSegment.2 = .ok true ↔
      ∃ seg ∈ self.m_record.dataExtensions,
        seg.subheader.typeID.raw = "LIDARA DES               " ∧
          seg.subheader.version.toInt = 1) ∧
    (self.locateLidarDataSegment.2 = .ok true →
      IsFirstIndex HasLidarDataId self.m_record.dataExtensions
          self.locateLidarDataSegment.1.m_lidarDataSegment ∧
        self.locateLidarDataSegment.1 =
          { self with m_lidarDataSegment :=
              self.locateLidarDataSegment.1.m_lidarDataSegment }) ∧
    (self.locateLidarDataSegment.2 = .ok false → self.locateLidarDataSegment.1 = self) := by
  rcases locateLidarDataSegment_cases self with ⟨_, hbad⟩ | ⟨heq, hnone⟩ | ⟨k, heq, hfirst⟩
  · exact absurd hty hbad
  · rw [heq]
    refine ⟨⟨false, rfl⟩, ?_, ?_, fun _ => rfl⟩
    · constructor
      · intro h; simp at h
      · rintro ⟨seg, hseg, hP⟩; exact absurd hP (hnone seg hseg)
    · intro h; simp at h
  · rw [heq]
    refine ⟨⟨true, rfl⟩, ?_, fun _ => ⟨hfirst, rfl⟩, ?_⟩
    · exact ⟨fun _ => hfirst.exists_mem, fun _ => rfl⟩
    · intro h; simp at h

/-- C2 at a record whose first segment has the right type identifier but
version 2 and whose second and third segments satisfy the rule: the hypothesis
holds, the result is true and the marker is 1. -/
theorem locateLidarDataSegment_contract_witness :
    (∀ seg ∈ (fileWith sampleRecord).m_record.dataExtensions,
        seg.subheader.typeID.type = FieldType.BCS_A ∧
          seg.subheader.version.type = FieldType.BCS_N) ∧
      (fileWith sampleRecord).locateLidarDataSegment.2 = .ok true ∧
      (fileWith sampleRecord).locateLidarDataSegment.1.m_lidarDataSegment = 1 ∧
      IsFirstIndex HasLidarDataId (fileWith sampleRecord).m_record.dataExtensions 1 :=
  ⟨by decide, rfl, by decide,
    ((locateLidarDataSegment_contract (fileWith sampleRecord) (by decide)).2.2.1 rfl).1⟩

/-! ## Opening a file without lidar segments -/

/-- C3. Under the strict policy, on a record the reader returned: when no image
segment satisfies the image rule, or no data-extension segment satisfies the
type/version rule, `openExisting` throws a `pdal_error` and leaves
`m_validLidarSegments` as it was (false stays false).  When no image segment
satisfies the image rule (image identifiers typed BCS-A, as the library types
them) the error is the missing-image error whatever the data-extension
segments are, and the state is the entry state with only the record stored:
the data-extension segments have not been looked at. -/
theorem openExisting_missing_segment (self : NitfFile) (rec : Record)
    (hmiss : (∀ seg ∈ rec.images, ¬ HasLidarImageId seg) ∨
      (∀ seg ∈ rec.dataExtensions, ¬ HasLidarDataId seg)) :
    (∃ msg, (self.openExisting (.read rec)).2 = .error (Error.pdal_error msg)) ∧
    (self.openExisting (.read rec)).1.m_validLidarSegments = self.m_validLidarSegments ∧
    ((∀ seg ∈ rec.images, ¬ HasLidarImageId seg) →
      (∀ seg ∈ rec.images, seg.subheader.imageId.type = FieldType.BCS_A) →
      self.openExisting (.read rec) =
        ({ self with m_record := rec },
          .error (Error.pdal_error
            "Unable to find lidar-compatible image segment in NITF file"))) := by
  rcases openExisting_read_cases self rec with
    ⟨heq, hbad⟩ | ⟨heq, hnone⟩ | ⟨k, hk, ⟨msg, heq⟩, hbad⟩ | ⟨k, hk, heq, hnone⟩ |
      ⟨k, d, hk, hd, heq⟩
  · rw [heq]
    exact ⟨⟨_, rfl⟩, rfl, fun _ hty => absurd hty hbad⟩
  · rw [heq]
    exact ⟨⟨_, rfl⟩, rfl, fun _ _ => rfl⟩
  · rw [heq]
    refine ⟨⟨_, rfl⟩, rfl, fun hno _ => ?_⟩
    obtain ⟨a, ha, hP⟩ := hk.exists_mem
    exact absurd hP (hno a ha)
  · rw [heq]
    refine ⟨⟨_, rfl⟩, rfl, fun hno _ => ?_⟩
    obtain ⟨a, ha, hP⟩ := hk.exists_mem
    exact absurd hP (hno a ha)
  · exfalso
    rcases hmiss with hno | hno
    · obtain ⟨a, ha, hP⟩ := hk.exists_mem
      exact hno a ha hP
    · obtain ⟨a, ha, hP⟩ := hd.exists_mem
      exact hno a ha hP

/-- C3 at a record lacking both segments, opened by a fresh object: the error is
the missing-image one although the data-extension segment is ill-typed, and the
flag is still false. -/
theorem openExisting_missing_segment_witness :
    ((∀ seg ∈ lackingBoth.images, ¬ HasLidarImageId seg) ∨
      (∀ seg ∈ lackingBoth.dataExtensions, ¬ HasLidarDataId seg)) ∧
    (NitfFile.new "sample.ntf").openExisting (.read lackingBoth) =
        ({ NitfFile.new "sample.ntf" with m_record := lackingBoth },
          .error (Error.pdal_error
            "Unable to find lidar-compatible image segment in NITF file")) ∧
    ((NitfFile.new "sample.ntf").openExisting (.read lackingBoth)).1.m_validLidarSegments
      = false :=
  ⟨Or.inl (by decide),
    (openExisting_missing_segment (NitfFile.new "sample.ntf") lackingBoth
      (Or.inl (by decide))).2.2 (by decide) (by decide),
    (openExisting_missing_segment (NitfFile.new "sample.ntf") lackingBoth
      (Or.inl (by decide))).2.1⟩

/-! ## Payload locator -/

theorem getLasOffsetLoop_eq (k : Nat) (l : List DESegment) (n : Nat) :
    getLasOffsetLoop k l n = if k < n then none else l[k - n]? := by
  induction l generalizing n with
  | nil => simp [getLasOffsetLoop]
  | cons a rest ih =>
    simp only [getLasOffsetLoop]
    by_cases h : n = k
    · subst h; simp
    · rw [if_neg h, ih]
      by_cases hlt : k < n
      · have : k < n + 1 := by omega
        simp [hlt, this]
      · have h1 : ¬ k < n + 1 := by omega
        have h2 : k - n = (k - (n + 1)) + 1 := by omega
        simp only [hlt, h1, if_false]
        rw [h2, List.getElem?_cons_succ]

/-- C4. On an object whose `m_validLidarSegments` is false, whatever its record
and whatever the output arguments held, `getLasOffset` returns normally with
offset 0 and length 0. -/
theorem getLasOffset_unclassified (self : NitfFile) (offset length : Nat)
    (h : self.m_validLidarSegments = false) :
    self.getLasOffset offset length = ((0, 0), .ok ()) := by
  simp [NitfFile.getLasOffset, h]

/-- C4 at a freshly constructed object that was never opened, the output
arguments holding 17 and 42 on entry. -/
theorem getLasOffset_unclassified_witness :
    (NitfFile.new "never-opened.ntf").m_validLidarSegments = false ∧
      (NitfFile.new "never-opened.ntf").getLasOffset 17 42 = ((0, 0), .ok ()) :=
  ⟨rfl, getLasOffset_unclassified (NitfFile.new "never-opened.ntf") 17 42 rfl⟩

/-- With the flag set and a segment under the data marker, `getLasOffset`
returns that segment's start offset and its wrapped extent. -/
theorem getLasOffset_at (self : NitfFile) (offset length : Nat) (seg : DESegment)
    (h : self.m_validLidarSegments = true)
    (hseg : self.m_record.dataExtensions[self.m_lidarDataSegment]? = some seg) :
    self.getLasOffset offset length =
      ((seg.getOffset, toUint64 (seg.getEnd + 2 ^ 64 - seg.getOffset)), .ok ()) := by
  have hloop : getLasOffsetLoop self.m_lidarDataSegment self.m_record.dataExtensions 0 =
      some seg := by
    rw [getLasOffsetLoop_eq]
    simpa using hseg
  simp [NitfFile.getLasOffset, h, hloop]

/-- The wrapped extent is the difference of end and start modulo 2^64. -/
theorem toUint64_extent (seg : DESegment) :
    ((toUint64 (seg.getEnd + 2 ^ 64 - seg.getOffset) : Nat) : Int) =
      ((seg.getEnd : Int) - (seg.getOffset : Int)) % 2 ^ 64 := by
  have hlt : seg.getOffset < 2 ^ 64 := by
    unfold DESegment.getOffset toUint64
    exact Nat.mod_lt _ (by norm_num)
  unfold toUint64
  generalize seg.getOffset = a at hlt ⊢
  generalize seg.getEnd = b
  norm_num at hlt ⊢
  omega

/-- C5. On an object whose `m_validLidarSegments` is true, with data marker `k`:
when `k` is below the number of data-extension segments, `getLasOffset` returns
normally, the offset is the start offset of segment `k` and the length is the
end of segment `k` minus its start offset modulo 2^64; otherwise it throws
`pdal_error "error reading nitf (1)"`. -/
theorem getLasOffset_classified (self : NitfFile) (offset length : Nat)
    (h : self.m_validLidarSegments = true) :
    (∀ hk : self.m_lidarDataSegment < self.m_record.dataExtensions.length,
      (self.getLasOffset offset length).2 = .ok () ∧
      (self.getLasOffset offset length).1.1 =
        (self.m_record.dataExtensions[self.m_lidarDataSegment]).getOffset ∧
      (((self.getLasOffset offset length).1.2 : Nat) : Int) =
        (((self.m_record.dataExtensions[self.m_lidarDataSegment]).getEnd : Int) -
          ((self.m_record.dataExtensions[self.m_lidarDataSegment]).getOffset : Int))
            % 2 ^ 64) ∧
    (self.m_record.dataExtensions.length ≤ self.m_lidarDataSegment →
      (self.getLasOffset offset length).2 =
        .error (Error.pdal_error "error reading nitf (1)")) := by
  constructor
  · intro hk
    rw [getLasOffset_at self offset length _ h (List.getElem?_eq_getElem hk)]
    exact ⟨rfl, rfl, toUint64_extent _⟩
  · intro hk
    have hloop : getLasOffsetLoop self.m_lidarDataSegment self.m_record.dataExtensions 0 =
        none := by
      rw [getLasOffsetLoop_eq]
      simp [hk]
    simp [NitfFile.getLasOffset, h, hloop]

/-- C5 at the classified sample object, marker 1: the payload runs from 200 to
1000, so the offset is 200 and the length 800. -/
theorem getLasOffset_classified_witness :
    classifiedFile.m_validLidarSegments = true ∧
      classifiedFile.getLasOffset 0 0 = ((200, 800), .ok ()) ∧
      (classifiedFile.getLasOffset 0 0).2 = .ok () :=
  ⟨rfl, rfl,
    ((getLasOffset_classified classifiedFile 0 0 rfl).1 (by decide)).1⟩

/-! ## Successful classification -/

/-- When no element before index `i` has the property and the one at `i` has
it, `i` is the first index. -/
theorem isFirstIndex_of {α : Type} {P : α → Prop} {l : List α} {i : Nat} {a : α}
    (ha : l[i]? = some a) (hP : P a)
    (hbefore : ∀ j, j < i → ∀ b, l[j]? = some b → ¬ P b) : IsFirstIndex P l i :=
  ⟨⟨a, ha, hP⟩, hbefore⟩

/-- On a well-typed record holding a segment of each kind that satisfies its
rule, `openExisting` succeeds and stores the first index of each kind. -/
theorem openExisting_ok_of_mem (self : NitfFile) (rec : Record)
    (htyI : ImagesTyped rec) (htyD : DataTyped rec)
    (hI : ∃ seg ∈ rec.images, HasLidarImageId seg)
    (hD : ∃ seg ∈ rec.dataExtensions, HasLidarDataId seg) :
    ∃ k d, IsFirstIndex HasLidarImageId rec.images k ∧
      IsFirstIndex HasLidarDataId rec.dataExtensions d ∧
      self.openExisting (.read rec) =
        ({ self with m_record := rec, m_lidarImageSegment := k, m_lidarDataSegment := d,
                     m_validLidarSegments := true }, .ok ()) := by
  rcases openExisting_read_cases self rec with
    ⟨_, hbad⟩ | ⟨_, hnone⟩ | ⟨_, _, _, hbad⟩ | ⟨_, _, _, hnone⟩ | h
  · exact absurd htyI hbad
  · obtain ⟨seg, hseg, hP⟩ := hI
    exact absurd hP (hnone seg hseg)
  · exact absurd htyD hbad
  · obtain ⟨seg, hseg, hP⟩ := hD
    exact absurd hP (hnone seg hseg)
  · exact h

/-- C8 (amended). On a record whose image-identifier, type-identifier and
version fields have the types the classifier insists on, and that holds an
image segment with identifier "INTENSITY " at index `i` and a data-extension
segment with the right type identifier and version 1 at index `d`:
`openExisting` succeeds and marks the file valid; the image marker is `i` when
no image segment before `i` carries "INTENSITY ", "ELEVATION " or "None      ",
and the data marker is `d` when no data-extension segment before `d` satisfies
the type/version rule. -/
theorem openExisting_intensity (self : NitfFile) (rec : Record) (i d : Nat)
    (imseg : ImageSegment) (seg : DESegment)
    (htyI : ∀ s ∈ rec.images, s.subheader.imageId.type = FieldType.BCS_A)
    (htyD : ∀ s ∈ rec.dataExtensions,
      s.subheader.typeID.type = FieldType.BCS_A ∧ s.subheader.version.type = FieldType.BCS_N)
    (hi : rec.images[i]? = some imseg)
    (hid : imseg.subheader.imageId.raw = "INTENSITY ")
    (hd : rec.dataExtensions[d]? = some seg)
    (hdd : seg.subheader.typeID.raw = "LIDARA DES               " ∧
      seg.subheader.version.toInt = 1) :
    (self.openExisting (.read rec)).2 = .ok () ∧
    (self.openExisting (.read rec)).1.m_validLidarSegments = true ∧
    ((∀ j, j < i → ∀ b, rec.images[j]? = some b → ¬ HasLidarImageId b) →
      (self.openExisting (.read rec)).1.m_lidarImageSegment = i) ∧
    ((∀ j, j < d → ∀ b, rec.dataExtensions[j]? = some b → ¬ HasLidarDataId b) →
      (self.openExisting (.read rec)).1.m_lidarDataSegment = d) := by
  have hPi : HasLidarImageId imseg := Or.inl hid
  obtain ⟨k, e, hk, he, heq⟩ := openExisting_ok_of_mem self rec htyI htyD
    ⟨imseg, List.mem_iff_getElem?.2 ⟨i, hi⟩, hPi⟩
    ⟨seg, List.mem_iff_getElem?.2 ⟨d, hd⟩, hdd⟩
  rw [heq]
  refine ⟨rfl, rfl, fun hbefore => ?_, fun hbefore => ?_⟩
  · exact hk.unique (isFirstIndex_of hi hPi hbefore)
  · exact he.unique (isFirstIndex_of hd hdd hbefore)

/-- C8 (amended) at a record whose only lidar segments are the "INTENSITY "
image segment at index 1 and the data-extension segment at index 1. -/
theorem openExisting_intensity_witness :
    (NitfFile.new "sample.ntf").openExisting (.read intensityRecord) =
      ({ NitfFile.new "sample.ntf" with
          m_record := intensityRecord, m_lidarImageSegment := 1, m_lidarDataSegment := 1,
          m_validLidarSegments := true }, .ok ()) ∧
    ((NitfFile.new "sample.ntf").openExisting (.read intensityRecord)).1.m_lidarImageSegment
      = 1 :=
  ⟨rfl,
    (openExisting_intensity (NitfFile.new "sample.ntf") intensityRecord 1 1
      (imageWithId "INTENSITY ") (desWith "LIDARA DES               " "01" 200 1000)
      (by decide) (by decide) rfl rfl rfl (by decide)).2.2.1 (by decide)⟩

/-- C8 as stated fails: the record holds an "INTENSITY " image segment at
index 1 and a lidar data-extension segment, `openExisting` succeeds, yet the
image marker is 0, the index of the "ELEVATION " segment that comes first. -/
theorem openExisting_intensity_counterexample :
    elevationFirst.images[1]? = some (imageWithId "INTENSITY ") ∧
    elevationFirst.images[0]? = some (imageWithId "ELEVATION ") ∧
    (∃ seg, elevationFirst.dataExtensions[0]? = some seg ∧ HasLidarDataId seg) ∧
    ((NitfFile.new "sample.ntf").openExisting (.read elevationFirst)).2 = .ok () ∧
    ((NitfFile.new "sample.ntf").openExisting (.read elevationFirst)).1.m_lidarImageSegment
      = 0 ∧
    ¬ ((NitfFile.new "sample.ntf").openExisting (.read elevationFirst)).1.m_lidarImageSegment
      = 1 := by
  refine ⟨rfl, rfl, ⟨_, rfl, by decide⟩, rfl, by decide, by decide⟩

/-- C10. When `openExisting` returns without error on a record, the flag is
set, the record is the one read, the image marker is below the number of image
segments and the data marker below the number of data-extension segments; the
segment under the data marker satisfies the type/version rule, and a following
`getLasOffset` returns normally with that segment's start offset and its
extent (end minus start modulo 2^64): it neither throws nor takes the
flag-is-false exit. -/
theorem openExisting_ok_then_getLasOffset (self : NitfFile) (rec : Record)
    (offset length : Nat) (hok : (self.openExisting (.read rec)).2 = .ok ()) :
    (self.openExisting (.read rec)).1.m_validLidarSegments = true ∧
    (self.openExisting (.read rec)).1.m_record = rec ∧
    (self.openExisting (.read rec)).1.m_lidarImageSegment < rec.images.length ∧
    (self.openExisting (.read rec)).1.m_lidarDataSegment < rec.dataExtensions.length ∧
    ∃ seg, rec.dataExtensions[(self.openExisting (.read rec)).1.m_lidarDataSegment]? = some seg ∧
      (seg.subheader.typeID.raw = "LIDARA DES               " ∧
        seg.subheader.version.toInt = 1) ∧
      ((self.openExisting (.read rec)).1.getLasOffset offset length).2 = .ok () ∧
      ((self.openExisting (.read rec)).1.getLasOffset offset length).1.1 = seg.getOffset ∧
      ((((self.openExisting (.read rec)).1.getLasOffset offset length).1.2 : Nat) : Int) =
        ((seg.getEnd : Int) - (seg.getOffset : Int)) % 2 ^ 64 := by
  rcases openExisting_read_cases self rec with
    ⟨heq, _⟩ | ⟨heq, _⟩ | ⟨_, _, ⟨_, heq⟩, _⟩ | ⟨_, _, heq, _⟩ | ⟨k, d, hk, hd, heq⟩
  · rw [heq] at hok; simp at hok
  · rw [heq] at hok; simp at hok
  · rw [heq] at hok; simp at hok
  · rw [heq] at hok; simp at hok
  · rw [heq]
    refine ⟨rfl, rfl, hk.lt_length, hd.lt_length, ?_⟩
    obtain ⟨⟨seg, hseg, hP⟩, _⟩ := hd
    refine ⟨seg, hseg, hP, ?_⟩
    rw [getLasOffset_at _ offset length seg rfl hseg]
    exact ⟨rfl, rfl, toUint64_extent seg⟩

/-- C10 at the sample record opened by a fresh object: the open succeeds and
the following `getLasOffset` reports offset 200 and length 800. -/
theorem openExisting_ok_then_getLasOffset_witness :
    ((NitfFile.new "sample.ntf").openExisting (.read sampleRecord)).2 = .ok () ∧
    (((NitfFile.new "sample.ntf").openExisting (.read sampleRecord)).1.getLasOffset 7 7)
      = ((200, 800), .ok ()) ∧
    ((NitfFile.new "sample.ntf").openExisting (.read sampleRecord)).1.m_lidarDataSegment
      < sampleRecord.dataExtensions.length :=
  ⟨rfl, rfl,
    (openExisting_ok_then_getLasOffset (NitfFile.new "sample.ntf") sampleRecord 7 7 rfl).2.2.2.1⟩

/-! ## Writer -/

theorem setNameValueFields_ok (split2 : String → Char → List String) (trim : String → String)
    (tag : String) (l : List String) (tre : TRE)
    (h : ∀ s ∈ l, (split2 s ':').length = 2) :
    setNameValueFields split2 trim tag l tre =
      .ok { tre with fields := tre.fields ++ l.map (nameValueOf split2 trim) } := by
  induction l generalizing tre with
  | nil => simp [setNameValueFields]
  | cons s rest ih =>
    have hs : (split2 s ':').length = 2 := h s (by simp)
    simp only [setNameValueFields, hs, ne_eq, not_true_eq_false, if_false]
    rw [ih _ (fun t ht => h t (by simp [ht]))]
    simp [TRE.setField, nameValueOf]

theorem setNameValueFields_error (split2 : String → Char → List String)
    (trim : String → String) (tag : String) (pre : List String) (s : String)
    (post : List String) (tre : TRE)
    (hpre : ∀ t ∈ pre, (split2 t ':').length = 2) (hs : (split2 s ':').length ≠ 2) :
    setNameValueFields split2 trim tag (pre ++ s :: post) tre =
      .error (Error.str
        ("Invalid name/value for " ++ tag ++ " '" ++ s ++ "'.  Format: <name>:<value>.")) := by
  induction pre generalizing tre with
  | nil => simp [setNameValueFields, hs]
  | cons t rest ih =>
    have ht : (split2 t ':').length = 2 := hpre t (by simp)
    simp only [List.cons_append, setNameValueFields, ht, ne_eq, not_true_eq_false, if_false]
    exact ih _ (fun u hu => hpre u (by simp [hu]))

theorem string_length_eq_zero (s : String) : s.length = 0 ↔ s = "" := by
  constructor
  · intro h
    cases s with
    | mk data =>
      have hd : data = [] := List.length_eq_zero.1 h
      subst hd
      rfl
  · rintro rfl; rfl

/-- The record `write` builds, when it builds one, spelled out slot by slot. -/
theorem write_ok_slots (split2 : String → Char → List String) (trim : String → String)
    (self self' : NitfFile) (w : WrittenRecord)
    (hw : self.write split2 trim = (self', .ok w)) :
    w.header.complianceLevel = self.m_cLevel ∧
    w.header.systemType = self.m_sType ∧
    w.header.originStationID = self.m_oStationId ∧
    w.header.fileTitle = (if self.m_fileTitle = "" then self.m_filename else self.m_fileTitle) ∧
    w.header.classification = self.m_fileClass ∧
    w.header.originatorName = self.m_origName ∧
    w.header.originatorPhone = self.m_origPhone ∧
    w.header.securityGroup.classificationSystem = self.m_securityClassificationSystem ∧
    w.header.securityGroup.controlAndHandling = self.m_securityControlAndHandling ∧
    w.header.securityGroup.classificationText = self.m_sic ∧
    w.des.securityClass = self.m_securityClass ∧
    w.image.imageSecurityClass = self.m_imgSecurityClass ∧
    w.image.imageDateAndTime = (if self.m_imgDate = "" then none else some self.m_imgDate) ∧
    w.image.imageTitle = self.m_imgIdentifier2 ∧
    w.des.typeID = "LIDARA DES" ∧ w.des.version = "01" ∧ w.image.imageId = "None" := by
  unfold NitfFile.write at hw
  simp only [String.isEmpty_iff, ne_eq, string_length_eq_zero] at hw
  split at hw
  · simp at hw
  · split at hw
    · simp at hw
    · simp only [Prod.mk.injEq, Except.ok.injEq] at hw
      obtain ⟨_, rfl⟩ := hw
      by_cases ht : self.m_fileTitle = "" <;> by_cases hd : self.m_imgDate = "" <;>
        simp [ht, hd]

/-- On the one-image, one-data-extension record read back from a written file,
`openExisting` succeeds with both markers at 0. -/
theorem openExisting_single (reader : NitfFile) (offset segEnd : Nat) :
    reader.openExisting (.read
        { images := [imageWithId "None      "]
          dataExtensions := [desWith "LIDARA DES               " "01" offset segEnd] }) =
      ({ reader with
          m_record :=
            { images := [imageWithId "None      "]
              dataExtensions := [desWith "LIDARA DES               " "01" offset segEnd] }
          m_lidarImageSegment := 0, m_lidarDataSegment := 0
          m_validLidarSegments := true }, .ok ()) := by
  have hI : HasLidarImageId (imageWithId "None      ") := by decide
  have hD : HasLidarDataId (desWith "LIDARA DES               " "01" offset segEnd) :=
    ⟨rfl, by show Field.toInt ⟨FieldType.BCS_N, "01"⟩ = 1; decide⟩
  obtain ⟨k, d, hk, hd, heq⟩ := openExisting_ok_of_mem reader
    { images := [imageWithId "None      "]
      dataExtensions := [desWith "LIDARA DES               " "01" offset segEnd] }
    (by intro seg hseg; simp at hseg; subst hseg; rfl)
    (by intro seg hseg; simp at hseg; subst hseg; exact ⟨rfl, rfl⟩)
    ⟨_, by simp, hI⟩ ⟨_, by simp, hD⟩
  have hk0 : k = 0 := by have := hk.lt_length; simp at this; omega
  have hd0 : d = 0 := by have := hd.lt_length; simp at this; omega
  subst hk0 hd0
  exact heq

/-- C6. For every configuration for which `write` succeeds, the file it writes
is read back as a record with one image segment whose identifier is "None"
padded to 10 characters and one data-extension segment whose type identifier is
"LIDARA DES" padded to 25 characters and whose version is "01"; on that record
`openExisting` (strict policy), called on any object, returns without error,
marks the file valid and sets the image marker and the data marker to 0. -/
theorem write_then_openExisting (split2 : String → Char → List String)
    (trim : String → String) (self self' : NitfFile) (w : WrittenRecord)
    (reader : NitfFile) (offset segEnd : Nat)
    (hw : self.write split2 trim = (self', .ok w)) :
    (w.readBack offset segEnd).images = [imageWithId "None      "] ∧
    (w.readBack offset segEnd).dataExtensions =
      [desWith "LIDARA DES               " "01" offset segEnd] ∧
    reader.openExisting (.read (w.readBack offset segEnd)) =
      ({ reader with
          m_record := w.readBack offset segEnd
          m_lidarImageSegment := 0, m_lidarDataSegment := 0
          m_validLidarSegments := true }, .ok ()) := by
  obtain ⟨-, -, -, -, -, -, -, -, -, -, -, -, -, -, hid, hver, himg⟩ :=
    write_ok_slots split2 trim self self' w hw
  have hrec : w.readBack offset segEnd =
      { images := [imageWithId "None      "]
        dataExtensions := [desWith "LIDARA DES               " "01" offset segEnd] } := by
    have h1 : setBCSA IID1_SZ "None" = ⟨FieldType.BCS_A, "None      "⟩ := by decide
    have h2 : setBCSA DESTAG_SZ "LIDARA DES" = ⟨FieldType.BCS_A, "LIDARA DES               "⟩ := by
      decide
    have h3 : setBCSN DESVER_SZ "01" = ⟨FieldType.BCS_N, "01"⟩ := by decide
    simp only [WrittenRecord.readBack, hid, hver, himg, h1, h2, h3, imageWithId, desWith]
  rw [hrec]
  exact ⟨rfl, rfl, openExisting_single reader offset segEnd⟩

/-- C6 at a configuration with one mission and one aircraft entry, re-opened by
a fresh object, the payload placed at bytes 843 to 2000. -/
theorem write_then_openExisting_witness :
    (∃ w, taggedConfig.write Utils.split2 Utils.trim =
        ({ taggedConfig with m_fileTitle := "out.ntf" }, .ok w) ∧
      (NitfFile.new "out.ntf").openExisting (.read (w.readBack 843 2000)) =
        ({ NitfFile.new "out.ntf" with
            m_record := w.readBack 843 2000
            m_lidarImageSegment := 0, m_lidarDataSegment := 0
            m_validLidarSegments := true }, .ok ())) :=
  ⟨_, rfl,
    (write_then_openExisting Utils.split2 Utils.trim taggedConfig
      { taggedConfig with m_fileTitle := "out.ntf" } _
      (NitfFile.new "out.ntf") 843 2000 rfl).2.2⟩

/-- What `write` returns in terms of the two name/value loops, the state
after the file-title default written `self₁`. -/
theorem write_loops (split2 : String → Char → List String) (trim : String → String)
    (self : NitfFile) :
    (∀ e, setNameValueFields split2 trim "AIMIDB" self.m_aimidb (TRE.mk "AIMIDB" []) =
        .error e → (self.write split2 trim).2 = .error e) ∧
    (∀ t e, setNameValueFields split2 trim "AIMIDB" self.m_aimidb (TRE.mk "AIMIDB" []) =
        .ok t →
      setNameValueFields split2 trim "ACFTB" self.m_acftb (TRE.mk "ACFTB" []) = .error e →
      (self.write split2 trim).2 = .error e) ∧
    (∀ t u, setNameValueFields split2 trim "AIMIDB" self.m_aimidb (TRE.mk "AIMIDB" []) =
        .ok t →
      setNameValueFields split2 trim "ACFTB" self.m_acftb (TRE.mk "ACFTB" []) = .ok u →
      ∃ w, (self.write split2 trim).2 = .ok w ∧
        w.image.extendedSection =
          (if self.m_aimidb = [] then [] else [t]) ++ (if self.m_acftb = [] then [] else [u])) := by
  refine ⟨fun e h => ?_, fun t e h h' => ?_, fun t u h h' => ?_⟩
  · unfold NitfFile.write
    by_cases ht : self.m_fileTitle.isEmpty = true <;> simp [ht, h]
  · unfold NitfFile.write
    by_cases ht : self.m_fileTitle.isEmpty = true <;> simp [ht, h, h']
  · unfold NitfFile.write
    by_cases ht : self.m_fileTitle.isEmpty = true
    · simp only [ht, if_true, h, h']
      refine ⟨_, rfl, ?_⟩
      by_cases ha : self.m_aimidb = [] <;> by_cases hb : self.m_acftb = [] <;> simp [ha, hb]
    · simp only [ht, Bool.false_eq_true, if_false, h, h']
      refine ⟨_, rfl, ?_⟩
      by_cases ha : self.m_aimidb = [] <;> by_cases hb : self.m_acftb = [] <;> simp [ha, hb]

/-- A list holding an entry that is not a pair splits at its first such entry. -/
theorem exists_first_not_pair (split2 : String → Char → List String) (l : List String)
    (s : String) (hs : s ∈ l) (hbad : (split2 s ':').length ≠ 2) :
    ∃ pre t post, l = pre ++ t :: post ∧ (∀ u ∈ pre, (split2 u ':').length = 2) ∧
      (split2 t ':').length ≠ 2 := by
  induction l with
  | nil => simp at hs
  | cons a rest ih =>
    by_cases ha : (split2 a ':').length = 2
    · have hs' : s ∈ rest := by
        rcases List.mem_cons.1 hs with h | h
        · subst h; exact absurd ha hbad
        · exact h
      obtain ⟨pre, t, post, hl, hpre, ht⟩ := ih hs'
      refine ⟨a :: pre, t, post, by simp [hl], ?_, ht⟩
      intro u hu
      rcases List.mem_cons.1 hu with h | h
      · subst h; exact ha
      · exact hpre u h
    · exact ⟨[], a, rest, rfl, by simp, ha⟩

/-- C7 (amended). An entry counts as one colon-separated pair when `split2`
cuts it at ':' into exactly two pieces; the AIMIDB list is processed before
the ACFTB list, each in order.  (1) When every entry of both lists is such a
pair, `write` succeeds and each non-empty list yields one extension (AIMIDB,
then ACFTB) holding, per entry and in order, one field whose name is the
trimmed first piece and whose value is the trimmed second piece.  (2) The first
AIMIDB entry that is not such a pair makes `write` throw the text
"Invalid name/value for AIMIDB '" followed by that entry verbatim and
"'.  Format: <name>:<value>.", whatever follows it.  (3) When all AIMIDB entries
are pairs, the first ACFTB entry that is not makes `write` throw the same text
with ACFTB.  (4) So every entry that is not a pair makes `write` throw, and the
text thrown quotes the first entry in processing order that is not a pair and
names the list that entry is in. -/
theorem write_nameValue_entries (split2 : String → Char → List String)
    (trim : String → String) (self : NitfFile) :
    ((∀ s ∈ self.m_aimidb, (split2 s ':').length = 2) →
      (∀ s ∈ self.m_acftb, (split2 s ':').length = 2) →
      ∃ w, (self.write split2 trim).2 = .ok w ∧
        w.image.extendedSection =
          expectedExtensions split2 trim self.m_aimidb self.m_acftb) ∧
    (∀ pre s post, self.m_aimidb = pre ++ s :: post →
      (∀ t ∈ pre, (split2 t ':').length = 2) → (split2 s ':').length ≠ 2 →
      (self.write split2 trim).2 =
        .error (Error.str
          ("Invalid name/value for AIMIDB '" ++ s ++ "'.  Format: <name>:<value>."))) ∧
    (∀ pre s post, (∀ t ∈ self.m_aimidb, (split2 t ':').length = 2) →
      self.m_acftb = pre ++ s :: post →
      (∀ t ∈ pre, (split2 t ':').length = 2) → (split2 s ':').length ≠ 2 →
      (self.write split2 trim).2 =
        .error (Error.str
          ("Invalid name/value for ACFTB '" ++ s ++ "'.  Format: <name>:<value>."))) ∧
    (∀ s, s ∈ self.m_aimidb ∨ s ∈ self.m_acftb → (split2 s ':').length ≠ 2 →
      ∃ tag pre t post,
        ((tag = "AIMIDB" ∧ self.m_aimidb = pre ++ t :: post) ∨
          (tag = "ACFTB" ∧ (∀ u ∈ self.m_aimidb, (split2 u ':').length = 2) ∧
            self.m_acftb = pre ++ t :: post)) ∧
        (∀ u ∈ pre, (split2 u ':').length = 2) ∧
        (split2 t ':').length ≠ 2 ∧
        (self.write split2 trim).2 =
          .error (Error.str
            ("Invalid name/value for " ++ tag ++ " '" ++ t ++
              "'.  Format: <name>:<value>."))) := by
  obtain ⟨hA, hB, hOK⟩ := write_loops split2 trim self
  have h2 : ∀ pre s post, self.m_aimidb = pre ++ s :: post →
      (∀ t ∈ pre, (split2 t ':').length = 2) → (split2 s ':').length ≠ 2 →
      (self.write split2 trim).2 =
        .error (Error.str
          ("Invalid name/value for " ++ "AIMIDB" ++ " '" ++ s ++
            "'.  Format: <name>:<value>.")) := by
    intro pre s post hl hpre hs
    refine hA _ ?_
    rw [hl]
    exact setNameValueFields_error split2 trim "AIMIDB" pre s post _ hpre hs
  have h3 : ∀ pre s post, (∀ t ∈ self.m_aimidb, (split2 t ':').length = 2) →
      self.m_acftb = pre ++ s :: post →
      (∀ t ∈ pre, (split2 t ':').length = 2) → (split2 s ':').length ≠ 2 →
      (self.write split2 trim).2 =
        .error (Error.str
          ("Invalid name/value for " ++ "ACFTB" ++ " '" ++ s ++
            "'.  Format: <name>:<value>.")) := by
    intro pre s post ha hl hpre hs
    refine hB _ _ (setNameValueFields_ok split2 trim "AIMIDB" self.m_aimidb _ ha) ?_
    rw [hl]
    exact setNameValueFields_error split2 trim "ACFTB" pre s post _ hpre hs
  refine ⟨fun ha hb => ?_, h2, h3, fun s hs hbad => ?_⟩
  · obtain ⟨w, hw, hext⟩ := hOK _ _
      (setNameValueFields_ok split2 trim "AIMIDB" self.m_aimidb _ ha)
      (setNameValueFields_ok split2 trim "ACFTB" self.m_acftb _ hb)
    exact ⟨w, hw, by simpa [expectedExtensions] using hext⟩
  · by_cases hall : ∀ t ∈ self.m_aimidb, (split2 t ':').length = 2
    · have hsB : s ∈ self.m_acftb := by
        rcases hs with h | h
        · exact absurd (hall s h) hbad
        · exact h
      obtain ⟨pre, t, post, hl, hpre, ht⟩ := exists_first_not_pair split2 _ s hsB hbad
      exact ⟨"ACFTB", pre, t, post, Or.inr ⟨rfl, hall, hl⟩, hpre, ht,
        h3 pre t post hall hl hpre ht⟩
    · push_neg at hall
      obtain ⟨u, hu, hubad⟩ := hall
      obtain ⟨pre, t, post, hl, hpre, ht⟩ := exists_first_not_pair split2 _ u hu hubad
      exact ⟨"AIMIDB", pre, t, post, Or.inl ⟨rfl, hl⟩, hpre, ht, h2 pre t post hl hpre ht⟩

/-- C7 (amended) with the helpers modelled from the spec: the entries "FOO:bar" and
" AC_MSN_ID : run 7 " become the fields FOO = bar and AC_MSN_ID = run 7; the
entry "FOOBAR" makes `write` throw a text that quotes it and names AIMIDB; the
entry "A:b:c" makes `write` throw a text that quotes it and names ACFTB. -/
theorem write_nameValue_entries_witness :
    (∃ w, (taggedConfig.write Utils.split2 Utils.trim).2 = .ok w ∧
      w.image.extendedSection =
        [TRE.mk "AIMIDB" [("FOO", "bar")], TRE.mk "ACFTB" [("AC_MSN_ID", "run 7")]]) ∧
    (malformedConfig.write Utils.split2 Utils.trim).2 =
      .error (Error.str "Invalid name/value for AIMIDB 'FOOBAR'.  Format: <name>:<value>.") ∧
    (malformedAircraftConfig.write Utils.split2 Utils.trim).2 =
      .error (Error.str "Invalid name/value for ACFTB 'A:b:c'.  Format: <name>:<value>.") :=
  ⟨(write_nameValue_entries Utils.split2 Utils.trim taggedConfig).1 (by decide) (by decide),
    (write_nameValue_entries Utils.split2 Utils.trim malformedConfig).2.1
      ["FOO:bar"] "FOOBAR" [] rfl (by decide) (by decide),
    (write_nameValue_entries Utils.split2 Utils.trim malformedAircraftConfig).2.2.1
      [] "A:b:c" [] (by decide) rfl (by decide) (by decide)⟩

/-- C7 as stated fails: with mission entries "X" and "A:b:c" and aircraft entry
"FOOBAR", none of them a pair, `write` throws the text that quotes "X" and
names AIMIDB; the text quotes neither "A:b:c" nor "FOOBAR" and does not name
ACFTB, the list "FOOBAR" is in. -/
theorem write_nameValue_entries_counterexample :
    "A:b:c" ∈ twoMalformedConfig.m_aimidb ∧ (Utils.split2 "A:b:c" ':').length ≠ 2 ∧
    "FOOBAR" ∈ twoMalformedConfig.m_acftb ∧ (Utils.split2 "FOOBAR" ':').length ≠ 2 ∧
    (twoMalformedConfig.write Utils.split2 Utils.trim).2 =
      .error (Error.str "Invalid name/value for AIMIDB 'X'.  Format: <name>:<value>.") ∧
    ¬ ("A:b:c".toList <:+: "Invalid name/value for AIMIDB 'X'.  Format: <name>:<value>.".toList) ∧
    ¬ ("FOOBAR".toList <:+: "Invalid name/value for AIMIDB 'X'.  Format: <name>:<value>.".toList) ∧
    ¬ ("ACFTB".toList <:+: "Invalid name/value for AIMIDB 'X'.  Format: <name>:<value>.".toList) :=
  ⟨by decide, by decide, by decide, by decide, rfl, by decide, by decide, by decide⟩

/-- C9 (amended). For every configuration for which `write` builds its record,
each descriptive option is handed to its slot verbatim, an empty string
included: complexity level, standard type, station ID, file classification,
originator name and phone, classification system, control-and-handling,
classification text, DES security class, image security class and image
identifier 2.  Two options are guarded: the file-title slot gets the file name
when the title is empty, and the image-date slot is not set at all when the
date is empty. -/
theorem write_descriptive_fields (split2 : String → Char → List String)
    (trim : String → String) (self self' : NitfFile) (w : WrittenRecord)
    (hw : self.write split2 trim = (self', .ok w)) :
    w.header.complianceLevel = self.m_cLevel ∧
    w.header.systemType = self.m_sType ∧
    w.header.originStationID = self.m_oStationId ∧
    w.header.fileTitle = (if self.m_fileTitle = "" then self.m_filename else self.m_fileTitle) ∧
    w.header.classification = self.m_fileClass ∧
    w.header.originatorName = self.m_origName ∧
    w.header.originatorPhone = self.m_origPhone ∧
    w.header.securityGroup.classificationSystem = self.m_securityClassificationSystem ∧
    w.header.securityGroup.controlAndHandling = self.m_securityControlAndHandling ∧
    w.header.securityGroup.classificationText = self.m_sic ∧
    w.des.securityClass = self.m_securityClass ∧
    w.image.imageSecurityClass = self.m_imgSecurityClass ∧
    w.image.imageDateAndTime = (if self.m_imgDate = "" then none else some self.m_imgDate) ∧
    w.image.imageTitle = self.m_imgIdentifier2 := by
  obtain ⟨h1, h2, h3, h4, h5, h6, h7, h8, h9, h10, h11, h12, h13, h14, -⟩ :=
    write_ok_slots split2 trim self self' w hw
  exact ⟨h1, h2, h3, h4, h5, h6, h7, h8, h9, h10, h11, h12, h13, h14⟩

/-- C9 (amended) at a configuration with every descriptive option given: the
title slot gets the title and the date slot the date. -/
theorem write_descriptive_fields_witness :
    ∃ w, describedConfig.write Utils.split2 Utils.trim = (describedConfig, .ok w) ∧
      w.header.fileTitle = "survey" ∧ w.image.imageDateAndTime = some "20240101000000" ∧
      w.header.complianceLevel = "03" :=
  ⟨_, rfl,
    (write_descriptive_fields Utils.split2 Utils.trim describedConfig describedConfig _ rfl).2.2.2.1,
    (write_descriptive_fields Utils.split2 Utils.trim describedConfig describedConfig _
      rfl).2.2.2.2.2.2.2.2.2.2.2.2.1,
    (write_descriptive_fields Utils.split2 Utils.trim describedConfig describedConfig _ rfl).1⟩

/-- C9 as stated fails: with the file title and the image date supplied empty
and the file named "out.ntf", `write` succeeds, the file-title slot is handed
"out.ntf" instead of the supplied empty string, and the image-date slot is not
set. -/
theorem write_descriptive_fields_counterexample :
    untitledConfig.m_fileTitle = "" ∧ untitledConfig.m_imgDate = "" ∧
    ∃ w, (untitledConfig.write Utils.split2 Utils.trim).2 = .ok w ∧
      w.header.fileTitle = "out.ntf" ∧
      w.header.fileTitle ≠ untitledConfig.m_fileTitle ∧
      w.image.imageDateAndTime = none :=
  ⟨rfl, rfl, _, rfl, rfl, by decide, rfl⟩

/-! ## The placeholder sentinel and the written file -/

theorem locateLidarImageSegmentLoopUsing_isLidarImageId (segs : List ImageSegment) (n : Nat) :
    locateLidarImageSegmentLoopUsing isLidarImageId segs n =
      locateLidarImageSegmentLoop segs n := by
  induction segs generalizing n with
  | nil => rfl
  | cons a rest ih =>
    simp only [locateLidarImageSegmentLoopUsing, locateLidarImageSegmentLoop, ih]

theorem locateLidarImageSegmentUsing_isLidarImageId (self : NitfFile) :
    self.locateLidarImageSegmentUsing isLidarImageId = self.locateLidarImageSegment := by
  simp only [NitfFile.locateLidarImageSegmentUsing, NitfFile.locateLidarImageSegment,
    locateLidarImageSegmentLoopUsing_isLidarImageId]

theorem openExistingUsing_isLidarImageId (require : Bool) (self : NitfFile)
    (io : ReadOutcome) :
    self.openExistingUsing isLidarImageId require io = self.openExistingWith require io := by
  cases io <;>
    simp only [NitfFile.openExistingUsing, NitfFile.openExistingWith,
      locateLidarImageSegmentUsing_isLidarImageId]

/-- The stored image identifier and the record read back from a written file. -/
theorem readBack_eq (split2 : String → Char → List String) (trim : String → String)
    (self self' : NitfFile) (w : WrittenRecord) (offset segEnd : Nat)
    (hw : self.write split2 trim = (self', .ok w)) :
    setBCSA IID1_SZ w.image.imageId = ⟨FieldType.BCS_A, "None      "⟩ ∧
      w.readBack offset segEnd =
        { images := [imageWithId "None      "]
          dataExtensions := [desWith "LIDARA DES               " "01" offset segEnd] } := by
  obtain ⟨-, -, -, -, -, -, -, -, -, -, -, -, -, -, hid, hver, himg⟩ :=
    write_ok_slots split2 trim self self' w hw
  have h1 : setBCSA IID1_SZ "None" = ⟨FieldType.BCS_A, "None      "⟩ := by decide
  have h2 : setBCSA DESTAG_SZ "LIDARA DES" = ⟨FieldType.BCS_A, "LIDARA DES               "⟩ := by
    decide
  have h3 : setBCSN DESVER_SZ "01" = ⟨FieldType.BCS_N, "01"⟩ := by decide
  simp only [WrittenRecord.readBack, hid, hver, himg, h1, h2, h3, imageWithId, desWith,
    and_self]

/-- C11. For every configuration for which `write` builds its record, with the
file read back by any object: the stored image identifier ("None" padded to the
10-character field) differs from "INTENSITY " and from "ELEVATION " and equals
"None      ", so of the three comparisons of `locateLidarImageSegment` only the
third holds; `locateLidarImageSegment` returns true with marker 0; the same
scan accepting only "INTENSITY " and "ELEVATION " returns false and leaves the
state unchanged; and `openExisting` with that scan, under the strict policy,
throws the missing-image-segment error.  With the test of the source the
parametrised `openExisting` is `openExisting` itself, which succeeds. -/
theorem write_image_needs_placeholder (split2 : String → Char → List String)
    (trim : String → String) (self self' : NitfFile) (w : WrittenRecord)
    (reader : NitfFile) (offset segEnd : Nat)
    (hw : self.write split2 trim = (self', .ok w)) :
    ((setBCSA IID1_SZ w.image.imageId).raw ≠ "INTENSITY " ∧
      (setBCSA IID1_SZ w.image.imageId).raw ≠ "ELEVATION " ∧
      (setBCSA IID1_SZ w.image.imageId).raw = "None      ") ∧
    (w.readBack offset segEnd).images =
      [{ subheader := { imageId := setBCSA IID1_SZ w.image.imageId } }] ∧
    ({ reader with m_record := w.readBack offset segEnd } : NitfFile).locateLidarImageSegment =
      ({ reader with m_record := w.readBack offset segEnd, m_lidarImageSegment := 0 },
        .ok true) ∧
    ({ reader with m_record := w.readBack offset segEnd } :
        NitfFile).locateLidarImageSegmentUsing isLidarImageIdNoPlaceholder =
      ({ reader with m_record := w.readBack offset segEnd }, .ok false) ∧
    reader.openExistingUsing isLidarImageIdNoPlaceholder true
        (.read (w.readBack offset segEnd)) =
      ({ reader with m_record := w.readBack offset segEnd },
        .error (Error.pdal_error
          "Unable to find lidar-compatible image segment in NITF file")) ∧
    reader.openExistingUsing isLidarImageId true (.read (w.readBack offset segEnd)) =
      reader.openExisting (.read (w.readBack offset segEnd)) ∧
    (reader.openExisting (.read (w.readBack offset segEnd))).2 = .ok () := by
  obtain ⟨hfield, hrec⟩ := readBack_eq split2 trim self self' w offset segEnd hw
  have himgs : (w.readBack offset segEnd).images =
      [{ subheader := { imageId := setBCSA IID1_SZ w.image.imageId } }] := rfl
  rw [hfield] at himgs ⊢
  refine ⟨⟨by decide, by decide, rfl⟩, himgs, ?_, ?_, ?_, ?_, ?_⟩
  · simp only [NitfFile.locateLidarImageSegment, himgs]
    rfl
  · simp only [NitfFile.locateLidarImageSegmentUsing, himgs]
    rfl
  · simp only [NitfFile.openExistingUsing, NitfFile.locateLidarImageSegmentUsing, himgs]
    rfl
  · exact openExistingUsing_isLidarImageId true reader _
  · rw [hrec, openExisting_single reader offset segEnd]

/-- C11 at a configuration with one mission and one aircraft entry, the file
read back by a fresh object: the scan of the source returns true, the scan
without the placeholder returns false, and `openExisting` with it throws the
missing-image-segment error. -/
theorem write_image_needs_placeholder_witness :
    ∃ w, taggedConfig.write Utils.split2 Utils.trim =
        ({ taggedConfig with m_fileTitle := "out.ntf" }, .ok w) ∧
      (setBCSA IID1_SZ w.image.imageId).raw = "None      " ∧
      ({ NitfFile.new "out.ntf" with m_record := w.readBack 843 2000 } :
          NitfFile).locateLidarImageSegment.2 = .ok true ∧
      (NitfFile.new "out.ntf").openExistingUsing isLidarImageIdNoPlaceholder true
          (.read (w.readBack 843 2000)) =
        ({ NitfFile.new "out.ntf" with m_record := w.readBack 843 2000 },
          .error (Error.pdal_error
            "Unable to find lidar-compatible image segment in NITF file")) :=
  ⟨_, rfl, rfl, rfl,
    (write_image_needs_placeholder Utils.split2 Utils.trim taggedConfig
      { taggedConfig with m_fileTitle := "out.ntf" } _
      (NitfFile.new "out.ntf") 843 2000 rfl).2.2.2.2.1⟩

end pdal
